import Mathlib

/-!
Verification development for the appfriends-server signaling relay.

The repository holds several iterations of the same socket.io signaling
server.  The most complete iteration (second half of src/unnamed/part_001,
the StateManager with liveness tracking and a disconnect grace window) is
embedded here in the main namespace; the earlier iteration that carries the
call-request / call-response path (src/unnamed/part_000) is embedded in
namespace V0.

Conventions of the embedding:
- JavaScript Map objects become association lists over String keys.
  Map.get / Map.set / Map.delete become mapGet / mapSet / mapDelete.
- Date.now() becomes an explicit (now : Nat) parameter, in milliseconds,
  threaded into every handler that reads the clock in the source.
- socket.emit / io.emit / socket.broadcast.emit become Emit records
  collected into a list returned by each handler next to the new state.
- setTimeout / setInterval bodies become explicit step functions
  (graceCheck for the 30 s post-disconnect timeout, sweepCheck for the
  60 s per-user inactivity interval); scheduling itself is environmental.
-/

namespace AppFriends

/-- A JSON-ish payload value as emitted by the server. -/
inductive Val where
  | str (v : String)
  | boolean (v : Bool)
  | nullv
deriving DecidableEq, Repr

/-- JS value of a possibly-undefined user id. -/
def optStr : Option String → Val
  | some s => .str s
  | none => .nullv

/-- Where an emit goes: one socket, everybody, or everybody but the sender. -/
inductive Target where
  | socket (sid : String)
  | broadcastAll
  | broadcastOthers (sid : String)
deriving DecidableEq, Repr

/-- Available-confidents entries: userId, name, isAvailable (source builds
the literal true for the third component). -/
abbrev ConfInfo := String × String × Bool

/-- Payload of an emit: either a field map or (part_000 only) a bare array
of user ids, or the available-confidents listing. -/
inductive Payload where
  | fields (l : List (String × Val))
  | idList (l : List String)
  | confidents (l : List ConfInfo)
deriving DecidableEq, Repr

/-- One outbound socket.io message. -/
structure Emit where
  target : Target
  event : String
  payload : Payload
deriving DecidableEq, Repr

/-- Field lookup in an emitted payload. -/
def Emit.field? (e : Emit) (k : String) : Option Val :=
  match e.payload with
  | .fields l => l.lookup k
  | _ => none

/-! ### Association-list model of the JS Map objects -/

/-- Map.get: value stored under the key. -/
def mapGet {α : Type} : List (String × α) → String → Option α
  | [], _ => none
  | p :: rest, k => if p.1 == k then some p.2 else mapGet rest k

/-- Map.set: update in place if present (insertion order kept), append
otherwise. -/
def mapSet {α : Type} : List (String × α) → String → α → List (String × α)
  | [], k, v => [(k, v)]
  | p :: rest, k, v => if p.1 == k then (k, v) :: rest else p :: mapSet rest k v

/-- Map.delete. -/
def mapDelete {α : Type} : List (String × α) → String → List (String × α)
  | [], _ => []
  | p :: rest, k => if p.1 == k then mapDelete rest k else p :: mapDelete rest k

theorem beqT {a b : String} (h : a = b) : (a == b) = true := by
  simp [beq_iff_eq, h]

theorem beqF {a b : String} (h : ¬ a = b) : (a == b) = false := by
  simp [beq_iff_eq, h]

theorem mapGet_mapSet {α : Type} (l : List (String × α)) (k k' : String) (v : α) :
    mapGet (mapSet l k v) k' = if k' = k then some v else mapGet l k' := by
  induction l with
  | nil =>
    simp only [mapSet, mapGet]
    by_cases h : k' = k
    · simp [h]
    · simp [beqF (fun hh => h hh.symm), h]
  | cons p rest ih =>
    simp only [mapSet]
    by_cases hp : p.1 = k
    · simp only [beqT hp, if_true, mapGet]
      by_cases h : k' = k
      · simp [h]
      · have hpk' : ¬ p.1 = k' := fun hh => h ((hp.symm.trans hh).symm)
        simp [beqF (fun hh => h hh.symm), h, hpk', beqF hpk']
    · simp only [beqF hp, Bool.false_eq_true, if_false, mapGet]
      by_cases hq : p.1 = k'
      · have hne : ¬ (k' = k) := fun hh => hp (hq.trans hh)
        simp [beqT hq, hne]
      · simp [beqF hq, ih]

theorem mapGet_mapDelete {α : Type} (l : List (String × α)) (k k' : String) :
    mapGet (mapDelete l k) k' = if k' = k then none else mapGet l k' := by
  induction l with
  | nil => simp [mapDelete, mapGet]
  | cons p rest ih =>
    simp only [mapDelete]
    by_cases hp : p.1 = k
    · simp only [beqT hp, if_true, ih, mapGet]
      by_cases h : k' = k
      · simp [h]
      · simp [h, beqF (fun hh => h (hh.symm.trans hp))]
    · simp only [beqF hp, Bool.false_eq_true, if_false, mapGet]
      by_cases hq : p.1 = k'
      · have hne : ¬ (k' = k) := fun hh => hp (hq.trans hh)
        simp [beqT hq, hne]
      · simp [beqF hq, ih]

theorem mapGet_mem {α : Type} {l : List (String × α)} {k : String} {v : α}
    (h : mapGet l k = some v) : (k, v) ∈ l := by
  induction l with
  | nil => simp [mapGet] at h
  | cons p rest ih =>
    simp only [mapGet] at h
    by_cases hp : p.1 = k
    · simp only [beqT hp, if_true, Option.some.injEq] at h
      have hpv : p = (k, v) := by cases p; simp_all
      rw [← hpv]
      exact List.mem_cons_self _ _
    · simp only [beqF hp, Bool.false_eq_true, if_false] at h
      exact List.mem_cons_of_mem _ (ih h)

theorem mem_mapSet {α : Type} {l : List (String × α)} {k : String} {v : α}
    {p : String × α} (h : p ∈ mapSet l k v) : p = (k, v) ∨ p ∈ l := by
  induction l with
  | nil => simp [mapSet] at h; simp [h]
  | cons q rest ih =>
    simp only [mapSet] at h
    by_cases hq : q.1 = k
    · simp only [beqT hq, if_true, List.mem_cons] at h
      rcases h with h | h
      · exact Or.inl h
      · exact Or.inr (List.mem_cons_of_mem _ h)
    · simp only [beqF hq, Bool.false_eq_true, if_false, List.mem_cons] at h
      rcases h with h | h
      · exact Or.inr (by simp [h])
      · rcases ih h with h' | h'
        · exact Or.inl h'
        · exact Or.inr (List.mem_cons_of_mem _ h')

theorem mem_mapDelete {α : Type} {l : List (String × α)} {k : String}
    {p : String × α} (h : p ∈ mapDelete l k) : p ∈ l := by
  induction l with
  | nil => simp [mapDelete] at h
  | cons q rest ih =>
    simp only [mapDelete] at h
    by_cases hq : q.1 = k
    · simp only [beqT hq, if_true] at h
      exact List.mem_cons_of_mem _ (ih h)
    · simp only [beqF hq, Bool.false_eq_true, if_false, List.mem_cons] at h
      rcases h with h | h
      · simp [h]
      · exact List.mem_cons_of_mem _ (ih h)

/-! ### The User class (src/unnamed/part_001, lines 340-358) -/

/-- One registered participant, mirroring the User class fields. -/
structure User where
  socketId : String
  userType : String
  name : String
  isAvailable : Bool
  currentCallId : Option String
  lastPing : Nat
  isInCall : Bool
deriving DecidableEq, Repr

/-- The User constructor: isAvailable = false, currentCallId = null,
lastPing = Date.now(), isInCall = false. -/
def User.make (socketId userType name : String) (now : Nat) : User :=
  { socketId := socketId, userType := userType, name := name,
    isAvailable := false, currentCallId := none,
    lastPing := now, isInCall := false }

/-- User.updateLastPing. -/
def User.updateLastPing (u : User) (now : Nat) : User :=
  { u with lastPing := now }

/-- User.isActive: Date.now() - lastPing < 180000 (3 minutes). -/
def User.isActive (u : User) (now : Nat) : Bool :=
  now - u.lastPing < 180000

/-! ### StateManager (src/unnamed/part_001, lines 361-457) -/

/-- The mutable maps of the StateManager.  The calls map is declared in the
source but never read or written by any handler; the pingIntervals map only
stores timer handles, which are scheduling artifacts (the interval body is
embedded as sweepCheck below). -/
structure SState where
  users : List (String × User)
  sockets : List (String × String)
deriving DecidableEq, Repr

def initState : SState := ⟨[], []⟩

/-- StateManager.addUser: builds a fresh User and inserts both map entries.
Note the stale sockets entry of a previous registration of the same userId
is not removed.  (setupPingInterval only touches timer handles.) -/
def addUser (st : SState) (userId socketId userType name : String) (now : Nat) : SState :=
  { users := mapSet st.users userId (User.make socketId userType name now),
    sockets := mapSet st.sockets socketId userId }

/-- StateManager.removeUser. -/
def removeUser (st : SState) (userId : String) : SState :=
  match mapGet st.users userId with
  | some u =>
    { users := mapDelete st.users userId,
      sockets := mapDelete st.sockets u.socketId }
  | none => st

/-- StateManager.getUserBySocket. -/
def getUserBySocket (st : SState) (socketId : String) : Option User :=
  match mapGet st.sockets socketId with
  | some userId => mapGet st.users userId
  | none => none

/-- StateManager.getAvailableConfidents (the variant that also filters on
isActive). -/
def getAvailableConfidents (st : SState) (now : Nat) : List ConfInfo :=
  (st.users.filter
      (fun p => p.2.userType == "confident" && p.2.isAvailable && p.2.isActive now)).map
    (fun p => (p.1, p.2.name, true))

/-- StateManager.startCall.  The first argument is the possibly-undefined
fromUserId taken from the sockets map at the call site; users.get(undefined)
is undefined, so the guard fails when it is none.  When both users exist the
source mutates the two objects in place; the userId1 = userId2 corner
collapses the two writes onto one object, ending with currentCallId =
userId1. -/
def startCall (st : SState) (userId1 : Option String) (userId2 : String) : SState :=
  match userId1 with
  | none => st
  | some uid1 =>
    match mapGet st.users uid1, mapGet st.users userId2 with
    | some u1, some u2 =>
      if uid1 == userId2 then
        let v1 : User := { u1 with isInCall := true, currentCallId := some uid1 }
        { st with users := mapSet st.users uid1 v1 }
      else
        let v1 : User := { u1 with isInCall := true, currentCallId := some userId2 }
        let v2 : User := { u2 with isInCall := true, currentCallId := some uid1 }
        { st with users := mapSet (mapSet st.users uid1 v1) userId2 v2 }
    | _, _ => st

/-- StateManager.endCall.  Clears the partner first (when present), then the
user itself; the second write reads the object as it stands after the first
one, which matters only when the user is its own partner. -/
def endCall (st : SState) (userId : Option String) : SState :=
  match userId with
  | none => st
  | some uid =>
    match mapGet st.users uid with
    | none => st
    | some u =>
      match u.currentCallId with
      | none => st
      | some otherId =>
        let st1 :=
          match mapGet st.users otherId with
          | some other =>
            let vOther : User := { other with isInCall := false, currentCallId := none }
            { st with users := mapSet st.users otherId vOther }
          | none => st
        let uNow := match mapGet st1.users uid with
          | some x => x
          | none => u
        let vSelf : User := { uNow with isInCall := false, currentCallId := none }
        { st1 with users := mapSet st1.users uid vSelf }

/-! ### Socket event handlers (src/unnamed/part_001, lines 489-717) -/

/-- socket.emit of an error event to the acting connection. -/
def errEmit (sid etype emsg : String) : Emit :=
  ⟨Target.socket sid, "error", .fields [("type", Val.str etype), ("message", Val.str emsg)]⟩

def regErrMsg : String := "Données d\x27enregistrement invalides"

def targetErrMsg : String := "Utilisateur cible non trouvé"

/-- socket.on("register"): a falsy (empty) userId or userType throws, which
the catch turns into an error emit; otherwise addUser, then the registered
ack, the available-confidents snapshot for plain users, and the broadcast
to the others for confidents. -/
def registerHandler (st : SState) (now : Nat) (sid userId userType name : String) :
    SState × List Emit :=
  if userId == "" || userType == "" then
    (st, [errEmit sid "REGISTRATION_ERROR" regErrMsg])
  else
    let st' := addUser st userId sid userType name now
    let regEv : Emit :=
      ⟨Target.socket sid, "registered",
        .fields [("success", Val.boolean true), ("userId", Val.str userId),
                 ("userType", Val.str userType),
                 ("isConfident", Val.boolean (userType == "confident"))]⟩
    let listEv : List Emit :=
      if userType == "user" then
        [⟨Target.socket sid, "available-confidents",
          .confidents (getAvailableConfidents st' now)⟩]
      else []
    let bcastEv : List Emit :=
      if userType == "confident" then
        [⟨Target.broadcastOthers sid, "confident-status-update",
          .fields [("confidentId", Val.str userId),
                   ("isAvailable", Val.boolean (User.make sid userType name now).isAvailable),
                   ("name", Val.str name)]⟩]
      else []
    (st', regEv :: (listEv ++ bcastEv))

/-- socket.on("update-availability"). -/
def updateAvailabilityHandler (st : SState) (sid : String) (available : Bool) :
    SState × List Emit :=
  match mapGet st.sockets sid with
  | none => (st, [errEmit sid "AVAILABILITY_UPDATE_ERROR" "Utilisateur non trouvé"])
  | some userId =>
    match mapGet st.users userId with
    | none => (st, [errEmit sid "AVAILABILITY_UPDATE_ERROR" "Utilisateur non trouvé"])
    | some user =>
      if user.userType != "confident" then
        (st, [errEmit sid "AVAILABILITY_UPDATE_ERROR"
              "Seuls les confidents peuvent modifier leur disponibilité"])
      else
        let v : User := { user with isAvailable := available }
        ({ st with users := mapSet st.users userId v },
         [⟨Target.broadcastAll, "confident-status-update",
           .fields [("confidentId", Val.str userId),
                    ("isAvailable", Val.boolean available),
                    ("name", Val.str user.name)]⟩,
          ⟨Target.socket sid, "availability-updated",
           .fields [("success", Val.boolean true),
                    ("isAvailable", Val.boolean available)]⟩])

/-- socket.on("webrtc-offer").  Only the target is validated; the sender id
is read from the sockets map and may be undefined.  On success the call
session is (re)bound via startCall and the offer forwarded with a userId
field. -/
def webrtcOfferHandler (st : SState) (sid targetId offer : String) :
    SState × List Emit :=
  let fromUserId := mapGet st.sockets sid
  match mapGet st.users targetId with
  | none => (st, [errEmit sid "WEBRTC_OFFER_ERROR" targetErrMsg])
  | some targetUser =>
    (startCall st fromUserId targetId,
     [⟨Target.socket targetUser.socketId, "webrtc-offer",
       .fields [("offer", Val.str offer), ("userId", optStr fromUserId)]⟩])

/-- socket.on("webrtc-answer"). -/
def webrtcAnswerHandler (st : SState) (sid targetId answer : String) :
    SState × List Emit :=
  let fromUserId := mapGet st.sockets sid
  match mapGet st.users targetId with
  | none => (st, [errEmit sid "WEBRTC_ANSWER_ERROR" targetErrMsg])
  | some targetUser =>
    (st, [⟨Target.socket targetUser.socketId, "webrtc-answer",
           .fields [("answer", Val.str answer), ("userId", optStr fromUserId)]⟩])

/-- socket.on("ice-candidate"). -/
def iceCandidateHandler (st : SState) (sid targetId candidate : String) :
    SState × List Emit :=
  let fromUserId := mapGet st.sockets sid
  match mapGet st.users targetId with
  | none => (st, [errEmit sid "ICE_CANDIDATE_ERROR" targetErrMsg])
  | some targetUser =>
    (st, [⟨Target.socket targetUser.socketId, "ice-candidate",
           .fields [("candidate", Val.str candidate), ("userId", optStr fromUserId)]⟩])

/-- socket.on("end-call"): forwards call-ended to the target, then ends the
call session for the (possibly undefined) sender and for the target. -/
def endCallHandler (st : SState) (sid targetId : String) : SState × List Emit :=
  let fromUserId := mapGet st.sockets sid
  match mapGet st.users targetId with
  | none => (st, [errEmit sid "END_CALL_ERROR" targetErrMsg])
  | some targetUser =>
    (endCall (endCall st fromUserId) (some targetId),
     [⟨Target.socket targetUser.socketId, "call-ended",
       .fields [("userId", optStr fromUserId)]⟩])

/-- socket.conn.on("packet"): only packets with type "ping" refresh the
lastPing of the peer the socket resolves to. -/
def pingPacketHandler (st : SState) (now : Nat) (sid : String) : SState :=
  match mapGet st.sockets sid with
  | none => st
  | some userId =>
    match mapGet st.users userId with
    | none => st
    | some u => { st with users := mapSet st.users userId (u.updateLastPing now) }

/-- Result of the disconnect handler: new state, emitted events, and the
peer for which a 30 s grace timeout was scheduled, if any. -/
structure DisconnectResult where
  state : SState
  events : List Emit
  graceScheduled : Option String
deriving DecidableEq, Repr

/-- socket.on("disconnect"): unknown sockets are ignored; an in-call peer
is kept and a 30 s re-check is scheduled; otherwise the peer is removed at
once, with a confident-disconnected broadcast for confidents. -/
def disconnectHandler (st : SState) (sid : String) : DisconnectResult :=
  match mapGet st.sockets sid with
  | none => ⟨st, [], none⟩
  | some userId =>
    match mapGet st.users userId with
    | none => ⟨st, [], none⟩
    | some user =>
      if user.isInCall then ⟨st, [], some userId⟩
      else
        ⟨removeUser st userId,
         if user.userType == "confident" then
           [⟨Target.broadcastAll, "confident-disconnected",
             .fields [("confidentId", Val.str userId)]⟩]
         else [],
         none⟩

/-- Body of the 30 s setTimeout scheduled by the disconnect handler for an
in-call peer: the peer is removed only if it still exists, is no longer
active, and is no longer in a call. -/
def graceCheck (st : SState) (now : Nat) (userId : String) : SState × List Emit :=
  match mapGet st.users userId with
  | none => (st, [])
  | some u =>
    if !(u.isActive now) && !u.isInCall then
      (removeUser st userId,
       if u.userType == "confident" then
         [⟨Target.broadcastAll, "confident-disconnected",
           .fields [("confidentId", Val.str userId)]⟩]
       else [])
    else (st, [])

/-- Body of the 60 s per-user interval installed by setupPingInterval: an
inactive user is removed unless in a call.  The source emits nothing here.
-/
def sweepCheck (st : SState) (now : Nat) (userId : String) : SState × List Emit :=
  match mapGet st.users userId with
  | none => (st, [])
  | some u =>
    if !(u.isActive now) then
      if !u.isInCall then (removeUser st userId, []) else (st, [])
    else (st, [])

/-! ### Operation traces -/

/-- One inbound or timer-driven operation against the StateManager. -/
inductive Op where
  | register (now : Nat) (sid userId userType name : String)
  | updateAvail (sid : String) (available : Bool)
  | offer (sid targetId offer : String)
  | answer (sid targetId answer : String)
  | ice (sid targetId candidate : String)
  | endCallMsg (sid targetId : String)
  | ping (now : Nat) (sid : String)
  | disconnect (sid : String)
  | grace (now : Nat) (userId : String)
  | sweep (now : Nat) (userId : String)
deriving DecidableEq, Repr

/-- State transition of one operation (events discarded). -/
def stepOp (st : SState) : Op → SState
  | .register now sid uid ut nm => (registerHandler st now sid uid ut nm).1
  | .updateAvail sid av => (updateAvailabilityHandler st sid av).1
  | .offer sid tid o => (webrtcOfferHandler st sid tid o).1
  | .answer sid tid a => (webrtcAnswerHandler st sid tid a).1
  | .ice sid tid c => (iceCandidateHandler st sid tid c).1
  | .endCallMsg sid tid => (endCallHandler st sid tid).1
  | .ping now sid => pingPacketHandler st now sid
  | .disconnect sid => (disconnectHandler st sid).state
  | .grace now uid => (graceCheck st now uid).1
  | .sweep now uid => (sweepCheck st now uid).1

/-- State reached from the empty registry by a list of operations. -/
def runOps (ops : List Op) : SState :=
  ops.foldl stepOp initState

/-! ### Call-session invariants -/

/-- Per-peer consistency: isInCall is set exactly when currentCallId is. -/
def userOk (u : User) : Prop := u.isInCall = true ↔ u.currentCallId ≠ none

instance (u : User) : Decidable (userOk u) := by
  unfold userOk; infer_instance

/-- Every registered peer is per-peer consistent. -/
def stateOk (st : SState) : Prop := ∀ p ∈ st.users, userOk p.2

instance (st : SState) : Decidable (stateOk st) := by
  unfold stateOk; infer_instance

/-- Partner symmetry between registered peers: if A points at B then B
points back at A. -/
def symOk (st : SState) : Prop :=
  ∀ p ∈ st.users, ∀ q ∈ st.users, p.2.currentCallId = some q.1 →
    q.2.currentCallId = some p.1

instance (st : SState) : Decidable (symOk st) := by
  unfold symOk; infer_instance

/-- lastPing of a registered peer. -/
def lastPingOf (st : SState) (userId : String) : Option Nat :=
  (mapGet st.users userId).map User.lastPing

/-! ### Preservation of the per-peer call consistency -/

theorem userOk_make (sid ut nm : String) (now : Nat) : userOk (User.make sid ut nm now) := by
  simp [userOk, User.make]

theorem usersOk_mapSet {l : List (String × User)} {k : String} {v : User}
    (h : ∀ p ∈ l, userOk p.2) (hv : userOk v) : ∀ p ∈ mapSet l k v, userOk p.2 := by
  intro p hp
  rcases mem_mapSet hp with h' | h'
  · rw [h']; exact hv
  · exact h p h'

theorem usersOk_mapDelete {l : List (String × User)} {k : String}
    (h : ∀ p ∈ l, userOk p.2) : ∀ p ∈ mapDelete l k, userOk p.2 :=
  fun p hp => h p (mem_mapDelete hp)

theorem stateOk_addUser {st : SState} (h : stateOk st) (uid sid ut nm : String) (now : Nat) :
    stateOk (addUser st uid sid ut nm now) :=
  usersOk_mapSet h (userOk_make sid ut nm now)

theorem stateOk_removeUser {st : SState} (h : stateOk st) (uid : String) :
    stateOk (removeUser st uid) := by
  unfold removeUser
  split
  · exact usersOk_mapDelete h
  · exact h

theorem stateOk_startCall {st : SState} (h : stateOk st) (o : Option String) (t : String) :
    stateOk (startCall st o t) := by
  unfold startCall
  split
  · exact h
  · split
    · split
      · exact usersOk_mapSet h (by simp [userOk])
      · exact usersOk_mapSet (usersOk_mapSet h (by simp [userOk])) (by simp [userOk])
    · exact h

theorem stateOk_endCall {st : SState} (h : stateOk st) (o : Option String) :
    stateOk (endCall st o) := by
  unfold endCall
  split
  · exact h
  · split
    · exact h
    · split
      · exact h
      · split
        · exact usersOk_mapSet (usersOk_mapSet h (by simp [userOk])) (by simp [userOk])
        · exact usersOk_mapSet h (by simp [userOk])

theorem stateOk_ping {st : SState} (h : stateOk st) (now : Nat) (sid : String) :
    stateOk (pingPacketHandler st now sid) := by
  unfold pingPacketHandler
  split
  · exact h
  · split
    · exact h
    · next userId u hu =>
      exact usersOk_mapSet h (by
        have := h _ (mapGet_mem hu)
        simpa [userOk, User.updateLastPing] using this)

theorem stateOk_stepOp {st : SState} (h : stateOk st) (op : Op) : stateOk (stepOp st op) := by
  cases op with
  | register now sid uid ut nm =>
    simp only [stepOp, registerHandler]
    split
    · exact h
    · exact stateOk_addUser h uid sid ut nm now
  | updateAvail sid av =>
    simp only [stepOp, updateAvailabilityHandler]
    split
    · exact h
    · split
      · exact h
      · split
        · exact h
        · next user hget hne =>
          exact usersOk_mapSet h (by
            have := h _ (mapGet_mem hget)
            simpa [userOk] using this)
  | offer sid tid o =>
    simp only [stepOp, webrtcOfferHandler]
    split
    · exact h
    · exact stateOk_startCall h _ _
  | answer sid tid a =>
    simp only [stepOp, webrtcAnswerHandler]
    split
    · exact h
    · exact h
  | ice sid tid c =>
    simp only [stepOp, iceCandidateHandler]
    split
    · exact h
    · exact h
  | endCallMsg sid tid =>
    simp only [stepOp, endCallHandler]
    split
    · exact h
    · exact stateOk_endCall (stateOk_endCall h _) _
  | ping now sid => exact stateOk_ping h now sid
  | disconnect sid =>
    simp only [stepOp, disconnectHandler]
    split
    · exact h
    · split
      · exact h
      · split
        · exact h
        · exact stateOk_removeUser h _
  | grace now uid =>
    simp only [stepOp, graceCheck]
    split
    · exact h
    · split
      · exact stateOk_removeUser h _
      · exact h
  | sweep now uid =>
    simp only [stepOp, sweepCheck]
    split
    · exact h
    · split
      · split
        · exact stateOk_removeUser h _
        · exact h
      · exact h

theorem stateOk_foldl {st : SState} (h : stateOk st) (ops : List Op) :
    stateOk (ops.foldl stepOp st) := by
  induction ops generalizing st with
  | nil => exact h
  | cons op rest ih => exact ih (stateOk_stepOp h op)

/-! ### Claim C1 -/

/-- Reachable re-bind: peer a starts a call with b, then an offer from a to
c re-binds a to c while b still points at a. -/
def c1Ops : List Op :=
  [.register 0 "sa" "a" "user" "", .register 0 "sb" "b" "confident" "",
   .register 0 "sc" "c" "confident" "", .offer "sa" "b" "o1", .offer "sa" "c" "o2"]

/-- C1 counterexample: partner symmetry is not preserved by every
operation.  After a second webrtc-offer from a (already in a call with b)
to c, b still has peerCallPartner a while a now has peerCallPartner c, so
the reachable state runOps c1Ops violates symmetry. -/
theorem c1_partner_symmetry_cex : ¬ symOk (runOps c1Ops) := by decide

/-- C1 (amended): for every reachable state and every registered peer P,
P.inCall is true iff P.peerCallPartner (currentCallId) is set; every
operation preserves this per-peer consistency.  The symmetry half of the
original claim fails (see the counterexample): startCall re-binding a peer
already in a call leaves the abandoned partner still pointing at it. -/
theorem c1_inCall_iff_partner (ops : List Op) : stateOk (runOps ops) :=
  stateOk_foldl (fun p hp => by simp [initState] at hp) ops

/-! ### Claim C2 -/

/-- Re-registration of the same peerId from a second connection. -/
def c2Ops : List Op :=
  [.register 0 "s1" "p" "user" "", .register 0 "s2" "p" "user" ""]

/-- C2 counterexample: after p re-registers on connection s2, the
superseded connection s1 still resolves to p via lookup-by-connection
(addUser never deletes the old sockets entry), contradicting the claim
that the old connection no longer resolves to that peerId. -/
theorem c2_stale_socket_cex :
    mapGet (runOps c2Ops).sockets "s1" = some "p" ∧
    getUserBySocket (runOps c2Ops) "s1" = some (User.make "s2" "user" "" 0) := by
  decide

/-- C2 (amended): re-registering an existing peerId replaces the users
entry with a fresh peer bound to the new connection, and the new connection
resolves to the peerId; but the superseded old connection also still
resolves to that peerId via lookup-by-connection, because its sockets entry
is never removed, so connection-to-peer entries are not unique per peer. -/
theorem c2_reregistration (st : SState) (now : Nat) (uid sidOld sidNew utype nm : String)
    (hOld : mapGet st.sockets sidOld = some uid)
    (hne : sidOld ≠ sidNew) (hu : uid ≠ "") (ht : utype ≠ "") :
    mapGet (registerHandler st now sidNew uid utype nm).1.users uid
        = some (User.make sidNew utype nm now) ∧
    mapGet (registerHandler st now sidNew uid utype nm).1.sockets sidNew = some uid ∧
    mapGet (registerHandler st now sidNew uid utype nm).1.sockets sidOld = some uid ∧
    getUserBySocket (registerHandler st now sidNew uid utype nm).1 sidOld
        = some (User.make sidNew utype nm now) := by
  simp only [registerHandler, beqF hu, beqF ht, Bool.or_self, Bool.false_eq_true, if_false,
    addUser, getUserBySocket, mapGet_mapSet]
  refine ⟨by simp, by simp, ?_, ?_⟩
  · simp [hne, hOld]
  · simp [hne, hOld, mapGet_mapSet]

/-- Witness for c2_reregistration at a concrete re-registration. -/
theorem c2_reregistration_wit :
    getUserBySocket (registerHandler (runOps [Op.register 0 "s1" "p" "user" ""]) 5 "s2" "p" "user" "").1 "s1"
        = some (User.make "s2" "user" "" 5) :=
  (c2_reregistration (runOps [Op.register 0 "s1" "p" "user" ""]) 5 "p" "s1" "s2" "user" ""
    (by decide) (by decide) (by decide) (by decide)).2.2.2

/-! ### Claim C7 -/

/-- C7 counterexample: register accepts any non-empty role string; with
the unrecognized role "banana" it creates the peer and acks success, with
no error event, contradicting the claimed InvalidRegistration failure. -/
theorem c7_role_validation_cex :
    (registerHandler initState 0 "s1" "p" "banana" "").1.users
        = [("p", User.make "s1" "banana" "" 0)] ∧
    (registerHandler initState 0 "s1" "p" "banana" "").2.map Emit.event = ["registered"] := by
  decide

/-- C7 (amended): register fails with a REGISTRATION_ERROR error emit and
changes no state exactly when peerId or role is empty; the role is never
validated against the recognized values.  On success a fresh Peer with
available=false and inCall=false replaces any prior entry with the same
peerId. -/
theorem c7_register_validation (st : SState) (now : Nat) (sid uid utype nm : String) :
    ((uid = "" ∨ utype = "") →
      registerHandler st now sid uid utype nm
        = (st, [errEmit sid "REGISTRATION_ERROR" regErrMsg])) ∧
    (uid ≠ "" → utype ≠ "" →
      mapGet (registerHandler st now sid uid utype nm).1.users uid
          = some (User.make sid utype nm now) ∧
      (User.make sid utype nm now).isAvailable = false ∧
      (User.make sid utype nm now).isInCall = false ∧
      mapGet (registerHandler st now sid uid utype nm).1.sockets sid = some uid) := by
  constructor
  · intro h
    rcases h with h | h
    · simp [registerHandler, beqT h]
    · simp [registerHandler, beqT h]
  · intro h1 h2
    simp [registerHandler, beqF h1, beqF h2, addUser, mapGet_mapSet, User.make]

/-- Witness for c7_register_validation: the empty-role failure and a
successful registration. -/
theorem c7_register_validation_wit :
    registerHandler initState 0 "s0" "" "user" ""
        = (initState, [errEmit "s0" "REGISTRATION_ERROR" regErrMsg]) ∧
    mapGet (registerHandler initState 0 "s0" "q" "confident" "n").1.users "q"
        = some (User.make "s0" "confident" "n" 0) :=
  ⟨(c7_register_validation initState 0 "s0" "" "user" "").1 (Or.inl rfl),
   ((c7_register_validation initState 0 "s0" "q" "confident" "n").2
      (by decide) (by decide)).1⟩

/-! ### Claim C10 -/

/-- C10: a disconnect for a connection with no sockets entry is a no-op:
the state is unchanged, no events are emitted, and no grace timeout is
scheduled. -/
theorem c10_unknown_disconnect (st : SState) (sid : String)
    (h : mapGet st.sockets sid = none) :
    disconnectHandler st sid = ⟨st, [], none⟩ := by
  simp [disconnectHandler, h]

/-- Witness for c10_unknown_disconnect on the empty registry. -/
theorem c10_unknown_disconnect_wit :
    disconnectHandler initState "s9" = ⟨initState, [], none⟩ :=
  c10_unknown_disconnect initState "s9" rfl

/-! ### Claim C3 -/

theorem startCall_nonsender (st : SState) (t : String) : startCall st none t = st := rfl

theorem endCall_nonsender (st : SState) : endCall st none = st := rfl

/-- A state with one registered confident c on socket sc. -/
def c3State : SState := runOps [.register 0 "sc" "c" "confident" ""]

/-- C3 counterexample: a webrtc-offer from the unregistered connection sx
to the registered peer c emits no error to the sender and delivers a
webrtc-offer to c (with an undefined sender id), contradicting the claimed
UnknownSender abort with no events to other peers. -/
theorem c3_unknown_sender_cex :
    mapGet c3State.sockets "sx" = none ∧
    (webrtcOfferHandler c3State "sx" "c" "o").2
      = [⟨Target.socket "sc", "webrtc-offer",
          .fields [("offer", Val.str "o"), ("userId", Val.nullv)]⟩] := by
  decide

/-- C3 (amended): webrtc-offer, webrtc-answer, ice-candidate and end-call
never validate the acting connection.  With an unknown sender, an
unresolved target yields one type-specific error emit to the sender and no
state change, while a resolved target receives the forwarded message with
an undefined sender id — and end-call additionally clears the target's
call session. -/
theorem c3_unknown_sender (st : SState) (sid targetId o a c : String)
    (h : mapGet st.sockets sid = none) :
    (mapGet st.users targetId = none →
      webrtcOfferHandler st sid targetId o
        = (st, [errEmit sid "WEBRTC_OFFER_ERROR" targetErrMsg]) ∧
      webrtcAnswerHandler st sid targetId a
        = (st, [errEmit sid "WEBRTC_ANSWER_ERROR" targetErrMsg]) ∧
      iceCandidateHandler st sid targetId c
        = (st, [errEmit sid "ICE_CANDIDATE_ERROR" targetErrMsg]) ∧
      endCallHandler st sid targetId
        = (st, [errEmit sid "END_CALL_ERROR" targetErrMsg])) ∧
    (∀ tu, mapGet st.users targetId = some tu →
      webrtcOfferHandler st sid targetId o
        = (st, [⟨Target.socket tu.socketId, "webrtc-offer",
                 .fields [("offer", Val.str o), ("userId", Val.nullv)]⟩]) ∧
      webrtcAnswerHandler st sid targetId a
        = (st, [⟨Target.socket tu.socketId, "webrtc-answer",
                 .fields [("answer", Val.str a), ("userId", Val.nullv)]⟩]) ∧
      iceCandidateHandler st sid targetId c
        = (st, [⟨Target.socket tu.socketId, "ice-candidate",
                 .fields [("candidate", Val.str c), ("userId", Val.nullv)]⟩]) ∧
      endCallHandler st sid targetId
        = (endCall st (some targetId),
           [⟨Target.socket tu.socketId, "call-ended",
             .fields [("userId", Val.nullv)]⟩])) := by
  constructor
  · intro ht
    exact ⟨by simp [webrtcOfferHandler, ht], by simp [webrtcAnswerHandler, ht],
           by simp [iceCandidateHandler, ht], by simp [endCallHandler, ht]⟩
  · intro tu ht
    refine ⟨?_, ?_, ?_, ?_⟩
    · simp [webrtcOfferHandler, ht, h, optStr, startCall_nonsender]
    · simp [webrtcAnswerHandler, ht, h, optStr]
    · simp [iceCandidateHandler, ht, h, optStr]
    · simp [endCallHandler, ht, h, optStr, endCall_nonsender]

/-- Witness for c3_unknown_sender: the unknown-target error and the
forwarded answer from an unknown sender. -/
theorem c3_unknown_sender_wit :
    webrtcOfferHandler c3State "sx" "zz" "o"
      = (c3State, [errEmit "sx" "WEBRTC_OFFER_ERROR" targetErrMsg]) ∧
    webrtcAnswerHandler c3State "sx" "c" "a"
      = (c3State, [⟨Target.socket "sc", "webrtc-answer",
          .fields [("answer", Val.str "a"), ("userId", Val.nullv)]⟩]) :=
  ⟨((c3_unknown_sender c3State "sx" "zz" "o" "a" "i" (by decide)).1 (by decide)).1,
   (((c3_unknown_sender c3State "sx" "c" "o" "a" "i" (by decide)).2
      (User.make "sc" "confident" "" 0) (by decide)).2).1⟩

/-! ### Claim C4 -/

/-- A state where confident a (socket sa) is in a call with user b. -/
def c4St : SState :=
  runOps [.register 0 "sa" "a" "confident" "", .register 0 "sb" "b" "user" "",
          .offer "sb" "a" "o"]

/-- C4 counterexample: in-call confident a disconnects; at the end of the
30 s grace window, with no reconnection and no liveness refresh, the peer
is NOT removed and no broadcast fires: the grace check also requires the
peer to be stale for 3 minutes and no longer in a call, neither of which
the claimed scenario gives (and even once stale, an in-call peer is kept,
as the last conjunct shows). -/
theorem c4_grace_window_cex :
    (mapGet c4St.users "a").map User.isInCall = some true ∧
    disconnectHandler c4St "sa" = ⟨c4St, [], some "a"⟩ ∧
    graceCheck c4St 31000 "a" = (c4St, []) ∧
    graceCheck c4St 1000000000 "a" = (c4St, []) := by
  decide

/-- C4 (amended): an in-call peer is kept at disconnect time and a grace
re-check is scheduled.  The re-check removes the peer only if it is then
both inactive (3 minutes without liveness) and no longer in a call, in
which case a confident yields exactly one confident-disconnected
broadcast; otherwise it is a no-op.  A peer that re-registers is fresh,
so a re-check within the 3-minute activity horizon leaves it registered.
-/
theorem c4_grace_window (st : SState) (now : Nat) (sid uid : String) (u : User)
    (h1 : mapGet st.sockets sid = some uid) (h2 : mapGet st.users uid = some u) :
    (u.isInCall = true → disconnectHandler st sid = ⟨st, [], some uid⟩) ∧
    (u.isActive now = true ∨ u.isInCall = true → graceCheck st now uid = (st, [])) ∧
    (u.isActive now = false → u.isInCall = false →
      mapGet (graceCheck st now uid).1.users uid = none ∧
      (graceCheck st now uid).2
        = (if u.userType == "confident" then
             [⟨Target.broadcastAll, "confident-disconnected",
               .fields [("confidentId", Val.str uid)]⟩]
           else [])) ∧
    (∀ now2 sid2 utype nm now3, uid ≠ "" → utype ≠ "" → now3 - now2 < 180000 →
      graceCheck (registerHandler st now2 sid2 uid utype nm).1 now3 uid
        = ((registerHandler st now2 sid2 uid utype nm).1, [])) := by
  refine ⟨?_, ?_, ?_, ?_⟩
  · intro hc
    simp [disconnectHandler, h1, h2, hc]
  · intro hor
    rcases hor with hact | hc
    · simp [graceCheck, h2, hact]
    · simp [graceCheck, h2, hc]
  · intro hact hc
    constructor
    · simp [graceCheck, h2, hact, hc, removeUser, mapGet_mapDelete]
    · simp [graceCheck, h2, hact, hc]
  · intro now2 sid2 utype nm now3 hu hutype hlt
    have hreg : mapGet (registerHandler st now2 sid2 uid utype nm).1.users uid
        = some (User.make sid2 utype nm now2) := by
      simp [registerHandler, beqF hu, beqF hutype, addUser, mapGet_mapSet]
    have hact : (User.make sid2 utype nm now2).isActive now3 = true := by
      simp only [User.isActive, User.make, decide_eq_true_eq]
      exact hlt
    simp [graceCheck, hreg, hact]

/-- Witness for c4_grace_window at the concrete in-call disconnect. -/
theorem c4_grace_window_wit :
    disconnectHandler c4St "sa" = ⟨c4St, [], some "a"⟩ ∧
    graceCheck c4St 31000 "a" = (c4St, []) :=
  ⟨(c4_grace_window c4St 31000 "sa" "a"
      ({ User.make "sa" "confident" "" 0 with isInCall := true, currentCallId := some "b" })
      (by decide) (by decide)).1 (by decide),
   (c4_grace_window c4St 31000 "sa" "a"
      ({ User.make "sa" "confident" "" 0 with isInCall := true, currentCallId := some "b" })
      (by decide) (by decide)).2.1 (Or.inl (by decide))⟩

/-! ### Claim C5 -/

/-- A state with one stale registered confident. -/
def c5St : SState := runOps [.register 0 "sa" "a" "confident" ""]

/-- C5 counterexample: the sweep removes the stale confident a but emits
nothing — in particular no confident-disconnected broadcast — so eviction
by the sweep is not an implicit disconnect as claimed. -/
theorem c5_sweep_cex :
    (mapGet c5St.users "a").map User.userType = some "confident" ∧
    User.isActive (User.make "sa" "confident" "" 0) 200000 = false ∧
    sweepCheck c5St 200000 "a" = (⟨[], []⟩, []) := by
  decide

/-- C5 (amended): the sweep silently evicts a stale peer that is not in a
call (no broadcast is ever emitted by the sweep, for any role), and never
evicts a peer that is in a call or still active. -/
theorem c5_sweep (st : SState) (now : Nat) (uid : String) (u : User)
    (h : mapGet st.users uid = some u) :
    (∀ st2 : SState, (sweepCheck st2 now uid).2 = []) ∧
    (u.isActive now = false → u.isInCall = false →
      mapGet (sweepCheck st now uid).1.users uid = none) ∧
    (u.isInCall = true → (sweepCheck st now uid).1 = st) ∧
    (u.isActive now = true → (sweepCheck st now uid).1 = st) := by
  refine ⟨?_, ?_, ?_, ?_⟩
  · intro st2
    unfold sweepCheck
    split
    · rfl
    · split
      · split
        · rfl
        · rfl
      · rfl
  · intro hact hc
    simp [sweepCheck, h, hact, hc, removeUser, mapGet_mapDelete]
  · intro hc
    simp [sweepCheck, h, hc]
  · intro hact
    simp [sweepCheck, h, hact]

/-- Witness for c5_sweep at the concrete stale confident. -/
theorem c5_sweep_wit :
    mapGet (sweepCheck c5St 200000 "a").1.users "a" = none :=
  (c5_sweep c5St 200000 "a" (User.make "sa" "confident" "" 0)
    (by decide)).2.1 (by decide) (by decide)

/-! ### Claim C6 -/

/-- A state with a registered user u and confident c. -/
def c6St : SState :=
  runOps [.register 0 "su" "u" "user" "", .register 0 "sc" "c" "confident" ""]

/-- C6 counterexample: the single webrtc-offer event delivered to c
carries no callerId field at all; the sender identity travels in a field
named userId, contradicting the claimed callerId field. -/
theorem c6_offer_field_cex :
    ((webrtcOfferHandler c6St "su" "c" "o").2.map (fun e => e.field? "callerId"))
      = [none] ∧
    ((webrtcOfferHandler c6St "su" "c" "o").2.map (fun e => e.field? "userId"))
      = [some (Val.str "u")] := by
  decide

/-- C6 (amended): for a registered sender and a distinct registered
target, webrtc-offer delivers exactly one webrtc-offer event to the
target's connection carrying the offer and the sender's peerId in a field
named userId (not callerId), and afterwards both peers have inCall=true
with peerCallPartner referencing each other. -/
theorem c6_offer_forwarding (st : SState) (sid uid targetId o : String) (u tu : User)
    (h1 : mapGet st.sockets sid = some uid) (h2 : mapGet st.users uid = some u)
    (h3 : mapGet st.users targetId = some tu) (h4 : uid ≠ targetId) :
    (webrtcOfferHandler st sid targetId o).2
      = [⟨Target.socket tu.socketId, "webrtc-offer",
          .fields [("offer", Val.str o), ("userId", Val.str uid)]⟩] ∧
    mapGet (webrtcOfferHandler st sid targetId o).1.users uid
      = some { u with isInCall := true, currentCallId := some targetId } ∧
    mapGet (webrtcOfferHandler st sid targetId o).1.users targetId
      = some { tu with isInCall := true, currentCallId := some uid } := by
  refine ⟨?_, ?_, ?_⟩
  · simp [webrtcOfferHandler, h1, h3, optStr]
  · simp [webrtcOfferHandler, h1, h3, startCall, h2, beqF h4, mapGet_mapSet, h4]
  · simp [webrtcOfferHandler, h1, h3, startCall, h2, beqF h4, mapGet_mapSet]

/-- Witness for c6_offer_forwarding at the concrete offer from u to c. -/
theorem c6_offer_forwarding_wit :
    mapGet (webrtcOfferHandler c6St "su" "c" "o").1.users "c"
      = some { User.make "sc" "confident" "" 0 with
               isInCall := true, currentCallId := some "u" } :=
  (c6_offer_forwarding c6St "su" "u" "c" "o" (User.make "su" "user" "" 0)
    (User.make "sc" "confident" "" 0)
    (by decide) (by decide) (by decide) (by decide)).2.2

/-! ### Claim C9 -/

theorem lastPing_mapSet {l : List (String × User)} {k : String} (v : User) {u : User}
    (hget : mapGet l k = some u) (hv : v.lastPing = u.lastPing) (k2 : String) :
    (mapGet (mapSet l k v) k2).map User.lastPing
      = (mapGet l k2).map User.lastPing := by
  rw [mapGet_mapSet]
  split
  · next heq => rw [heq, hget]; simp [hv]
  · rfl

theorem lastPingOf_startCall (st : SState) (o : Option String) (t uid2 : String) :
    lastPingOf (startCall st o t) uid2 = lastPingOf st uid2 := by
  cases o with
  | none => rfl
  | some uid1 =>
    cases hg1 : mapGet st.users uid1 with
    | none => simp [startCall, hg1]
    | some u1 =>
      cases hg2 : mapGet st.users t with
      | none => simp [startCall, hg1, hg2]
      | some u2 =>
        by_cases heq : uid1 = t
        · subst heq
          simp only [startCall, hg1, hg2, beqT rfl, if_true, lastPingOf]
          exact lastPing_mapSet _ hg1 (by rfl) uid2
        · simp only [startCall, hg1, hg2, beqF heq, Bool.false_eq_true, if_false,
            lastPingOf]
          have hmid : mapGet
              (mapSet st.users uid1
                ({ u1 with isInCall := true, currentCallId := some t })) t = some u2 := by
            have hne2 : ¬ t = uid1 := fun hh => heq hh.symm
            rw [mapGet_mapSet]
            simp [hne2, hg2]
          exact (lastPing_mapSet _ hmid (by rfl) uid2).trans
            (lastPing_mapSet _ hg1 (by rfl) uid2)

theorem lastPingOf_endCall (st : SState) (o : Option String) (uid2 : String) :
    lastPingOf (endCall st o) uid2 = lastPingOf st uid2 := by
  cases o with
  | none => rfl
  | some uid =>
    cases hg : mapGet st.users uid with
    | none => simp [endCall, hg]
    | some u =>
      cases hcc : u.currentCallId with
      | none => simp [endCall, hg, hcc]
      | some otherId =>
        cases hgo : mapGet st.users otherId with
        | none =>
          simp only [endCall, hg, hcc, hgo, lastPingOf]
          exact lastPing_mapSet _ hg (by rfl) uid2
        | some other =>
          by_cases heq : uid = otherId
          · subst heq
            have hou : u = other := by rw [hg] at hgo; injection hgo
            subst hou
            simp only [endCall, hg, hcc, lastPingOf]
            have h5 : mapGet
                (mapSet st.users uid
                  ({ u with isInCall := false, currentCallId := none })) uid
                = some ({ u with isInCall := false, currentCallId := none }) := by
              rw [mapGet_mapSet]; simp
            simp only [h5]
            exact (lastPing_mapSet _ h5 (by rfl) uid2).trans (lastPing_mapSet _ hg (by rfl) uid2)
          · simp only [endCall, hg, hcc, hgo, lastPingOf]
            have h5 : mapGet
                (mapSet st.users otherId
                  ({ other with isInCall := false, currentCallId := none })) uid
                = some u := by
              rw [mapGet_mapSet]; simp [heq, hg]
            simp only [h5]
            exact (lastPing_mapSet _ h5 (by rfl) uid2).trans (lastPing_mapSet _ hgo (by rfl) uid2)

theorem lastPingOf_updateAvail (st : SState) (sid : String) (av : Bool) (uid2 : String) :
    lastPingOf (updateAvailabilityHandler st sid av).1 uid2 = lastPingOf st uid2 := by
  cases hs : mapGet st.sockets sid with
  | none => simp [updateAvailabilityHandler, hs]
  | some uid =>
    cases hg : mapGet st.users uid with
    | none => simp [updateAvailabilityHandler, hs, hg]
    | some user =>
      by_cases ht : user.userType = "confident"
      · have hb : (user.userType != "confident") = false := by
          simp [bne, beqT ht]
        simp only [updateAvailabilityHandler, hs, hg, hb, Bool.false_eq_true, if_false,
          lastPingOf]
        exact lastPing_mapSet _ hg (by rfl) uid2
      · have hb : (user.userType != "confident") = true := by
          simp [bne, beqF ht]
        simp [updateAvailabilityHandler, hs, hg, hb]

/-- A state with one registered confident c whose lastPing is 0. -/
def c9St : SState := runOps [.register 0 "sc" "c" "confident" ""]

/-- C9 counterexample: processing inbound update-availability and
webrtc-answer events from c leaves lastPing at its registration value 0 —
the handlers never read the clock — so inbound events other than
transport-level ping packets do not refresh liveness. -/
theorem c9_liveness_cex :
    lastPingOf c9St "c" = some 0 ∧
    lastPingOf (updateAvailabilityHandler c9St "sc" true).1 "c" = some 0 ∧
    lastPingOf (webrtcAnswerHandler c9St "sc" "c" "ans").1 "c" = some 0 := by
  decide

/-- C9 (amended): only a transport-level ping packet refreshes the acting
peer's lastPing (to the current time); the update-availability,
webrtc-offer, webrtc-answer, ice-candidate, and end-call handlers leave
every registered peer's lastPing unchanged (register creates a fresh
record whose lastPing is the registration time). -/
theorem c9_liveness_refresh (st : SState) (now : Nat)
    (sid targetId o a c : String) (av : Bool) :
    (∀ uid u, mapGet st.sockets sid = some uid → mapGet st.users uid = some u →
      lastPingOf (pingPacketHandler st now sid) uid = some now) ∧
    (∀ uid2, lastPingOf (updateAvailabilityHandler st sid av).1 uid2
      = lastPingOf st uid2) ∧
    (∀ uid2, lastPingOf (webrtcOfferHandler st sid targetId o).1 uid2
      = lastPingOf st uid2) ∧
    (webrtcAnswerHandler st sid targetId a).1 = st ∧
    (iceCandidateHandler st sid targetId c).1 = st ∧
    (∀ uid2, lastPingOf (endCallHandler st sid targetId).1 uid2
      = lastPingOf st uid2) := by
  refine ⟨?_, ?_, ?_, ?_, ?_, ?_⟩
  · intro uid u h1 h2
    simp [pingPacketHandler, h1, h2, lastPingOf, mapGet_mapSet, User.updateLastPing]
  · intro uid2
    exact lastPingOf_updateAvail st sid av uid2
  · intro uid2
    cases hg : mapGet st.users targetId with
    | none => simp [webrtcOfferHandler, hg]
    | some tu =>
      simp only [webrtcOfferHandler, hg]
      exact lastPingOf_startCall st (mapGet st.sockets sid) targetId uid2
  · cases hg : mapGet st.users targetId with
    | none => simp [webrtcAnswerHandler, hg]
    | some tu => simp [webrtcAnswerHandler, hg]
  · cases hg : mapGet st.users targetId with
    | none => simp [iceCandidateHandler, hg]
    | some tu => simp [iceCandidateHandler, hg]
  · intro uid2
    cases hg : mapGet st.users targetId with
    | none => simp [endCallHandler, hg]
    | some tu =>
      simp only [endCallHandler, hg]
      rw [lastPingOf_endCall, lastPingOf_endCall]

/-- Witness for c9_liveness_refresh: a ping packet refreshes c. -/
theorem c9_liveness_refresh_wit :
    lastPingOf (pingPacketHandler c9St 7777 "sc") "c" = some 7777 :=
  (c9_liveness_refresh c9St 7777 "sc" "t" "o" "a" "i" true).1 "c"
    (User.make "sc" "confident" "" 0) (by decide) (by decide)

end AppFriends

namespace AppFriendsV0

open AppFriends (Val Target Payload Emit optStr mapGet mapSet mapDelete)

/-! ### The earlier server iteration (src/unnamed/part_000) -/

/-- Entry of the connectedUsers map. -/
structure UData where
  socketId : String
  userType : String
  isAvailable : Bool
deriving DecidableEq, Repr

/-- connectedUsers: userId to the connection data. -/
abbrev SState0 := List (String × UData)

/-- getUserIdBySocketId: linear scan for the first entry carrying the
socket. -/
def getUserIdBySocketId (st : SState0) (sid : String) : Option String :=
  (st.find? (fun p => p.2.socketId == sid)).map (fun p => p.1)

/-- broadcastConfidentStatus. -/
def broadcastConfidentStatus (st : SState0) (confidentId : String) : List Emit :=
  match mapGet st confidentId with
  | some d =>
    [⟨Target.broadcastAll, "confident-status-update",
      .fields [("confidentId", Val.str confidentId),
               ("isAvailable", Val.boolean d.isAvailable)]⟩]
  | none => []

/-- sendAvailableConfidents: a bare array of userIds of available
confidents, sent to one socket. -/
def sendAvailableConfidents (st : SState0) (sid : String) : List Emit :=
  [⟨Target.socket sid, "available-confidents",
    .idList ((st.filter (fun p => p.2.userType == "confident" && p.2.isAvailable)).map
      (fun p => p.1))⟩]

/-- socket.on("register") in part_000: users start available, confidents
start unavailable. -/
def register0 (st : SState0) (sid userId userType : String) : SState0 × List Emit :=
  let st' := mapSet st userId ⟨sid, userType, userType == "user"⟩
  if userType == "confident" then
    (st', broadcastConfidentStatus st' userId)
  else
    (st', sendAvailableConfidents st' sid)

/-- socket.on("update-availability") in part_000: silently ignores unknown
senders and non-confidents. -/
def updateAvailability0 (st : SState0) (sid : String) (available : Bool) :
    SState0 × List Emit :=
  match getUserIdBySocketId st sid with
  | none => (st, [])
  | some userId =>
    match mapGet st userId with
    | none => (st, [])
    | some d =>
      if d.userType == "confident" then
        let st' := mapSet st userId { d with isAvailable := available }
        (st', broadcastConfidentStatus st' userId)
      else (st, [])

/-- socket.on("call-request"): the only gate is the availability flag of
the target entry; the userType is never consulted. -/
def callRequest0 (st : SState0) (sid targetConfidentId : String) : List Emit :=
  match mapGet st targetConfidentId with
  | some d =>
    if d.isAvailable then
      [⟨Target.socket d.socketId, "incoming-call",
        .fields [("callerId", optStr (getUserIdBySocketId st sid))]⟩]
    else
      [⟨Target.socket sid, "call-failed",
        .fields [("reason", Val.str "Confident non disponible")]⟩]
  | none =>
    [⟨Target.socket sid, "call-failed",
      .fields [("reason", Val.str "Confident non disponible")]⟩]

/-! ### Claim C8 -/

/-- Two plain users registered through the part_000 register handler; both
start with isAvailable = true. -/
def c8St : SState0 := (register0 (register0 [] "s1" "u1" "user").1 "s2" "u2" "user").1

/-- C8 counterexample: a call-request to u1, a peer of role user (not
Confidant), forwards incoming-call to u1 because the availability flag is
the only gate — contradicting the claim that only a Confidant target can
be called. -/
theorem c8_role_gate_cex :
    (mapGet c8St "u1").map UData.userType = some "user" ∧
    callRequest0 c8St "s2" "u1"
      = [⟨Target.socket "s1", "incoming-call",
          .fields [("callerId", Val.str "u2")]⟩] := by
  decide

/-- C8 (amended): a call-request whose target is absent or not available
yields exactly one call-failed event to the requester and no event to the
target; a call-request whose target is available — whatever its role —
forwards exactly one incoming-call event with the caller's peerId to the
target's connection.  The target's role is never consulted. -/
theorem c8_call_request (st : SState0) (sid targetId : String) :
    (mapGet st targetId = none →
      callRequest0 st sid targetId
        = [⟨Target.socket sid, "call-failed",
            .fields [("reason", Val.str "Confident non disponible")]⟩]) ∧
    (∀ d, mapGet st targetId = some d → d.isAvailable = false →
      callRequest0 st sid targetId
        = [⟨Target.socket sid, "call-failed",
            .fields [("reason", Val.str "Confident non disponible")]⟩]) ∧
    (∀ d, mapGet st targetId = some d → d.isAvailable = true →
      callRequest0 st sid targetId
        = [⟨Target.socket d.socketId, "incoming-call",
            .fields [("callerId", optStr (getUserIdBySocketId st sid))]⟩]) := by
  refine ⟨?_, ?_, ?_⟩
  · intro h
    simp [callRequest0, h]
  · intro d h hav
    simp [callRequest0, h, hav]
  · intro d h hav
    simp [callRequest0, h, hav]

/-- Witness for c8_call_request at the concrete available target. -/
theorem c8_call_request_wit :
    callRequest0 c8St "s2" "u1"
      = [⟨Target.socket "s1", "incoming-call",
          .fields [("callerId", optStr (getUserIdBySocketId c8St "s2"))]⟩] :=
  (c8_call_request c8St "s2" "u1").2.2 ⟨"s1", "user", true⟩ (by decide) rfl

end AppFriendsV0
